import Mathlib

/-!
Verification of the CSV scan coordinator (`CSVGlobalState`) from
`src/execution/operator/csv_scanner/table_function/global_csv_state.cpp`.

The coordinator decides between single-threaded and range-parallel scanning,
hands out scan units (`Next`), reports progress (`GetProgress`), detects
completion (`DecrementThread`) and materializes parse errors into a rejects
table (`FillRejectsTable`).  The definitions below are a shallow embedding of
that file: machine integers (`idx_t`, `size_t`) become `Nat`, C++ `double`
becomes `ℚ`, and the lock-serialized mutations become explicit state passing.
-/

namespace CSVScan

/-- Modelled from the spec: the `CSVErrorType` enumeration is declared outside
the excerpt.  The six kinds named by the two `switch` statements in
`global_csv_state.cpp` are modelled as constructors; every remaining kind
("other kinds not eligible for persistence", spec §3) is represented by the
single constructor `otherKind`. -/
inductive CSVErrorType where
  | cast_error
  | too_few_columns
  | too_many_columns
  | maximum_line_size
  | unterminated_quotes
  | invalid_unicode
  | otherKind
deriving DecidableEq, Repr, Inhabited

/-- `IsCSVErrorAcceptedReject` (global_csv_state.cpp lines 140-152): which
error kinds are eligible for persistence into the rejects table. -/
def IsCSVErrorAcceptedReject : CSVErrorType → Bool
  | .cast_error => true
  | .too_many_columns => true
  | .too_few_columns => true
  | .maximum_line_size => true
  | .unterminated_quotes => true
  | .invalid_unicode => true
  | _ => false

/-- `CSVErrorTypeToEnum` (global_csv_state.cpp lines 154-171): the label
stored in the rejects table for each eligible kind.  The `default` branch
throws an `InternalException`, embedded as `Except.error` carrying the
exception message. -/
def CSVErrorTypeToEnum : CSVErrorType → Except String String
  | .cast_error => .ok "CAST"
  | .too_few_columns => .ok "MISSING COLUMNS"
  | .too_many_columns => .ok "TOO MANY COLUMNS"
  | .maximum_line_size => .ok "LINE SIZE OVER MAXIMUM"
  | .unterminated_quotes => .ok "UNQUOTED VALUE"
  | .invalid_unicode => .ok "INVALID UNICODE"
  | _ => .error "CSV Error is not valid to be stored in a Rejects Table"

/-- One classified parse error held by a file's error handler.  The C++ code
obtains the logical line of an error via `error_handler->GetLine(error.error_info)`
(a collaborator outside the excerpt); the resolved line is modelled as the
stored field `row_line`. -/
structure CSVError where
  type : CSVErrorType
  column_idx : Nat
  byte_position : Nat
  row_line : Nat
  csv_row : String
  error_message : String
deriving DecidableEq, Repr, Inhabited

/-- The slice of `CSVFileScan` that the coordinator reads: path, ordinal
index, byte size, bytes-read counter and the error handler's `errors`
container (a map of error vectors, embedded as the list of its vectors in
iteration order). -/
structure CSVFileScan where
  file_path : String
  file_idx : Nat
  file_size : Nat
  bytes_read : Nat
  errors : List (List CSVError)
deriving DecidableEq, Repr, Inhabited

/-- The slice of `CSVIterator` the coordinator observes: whether a boundary
is set (the default-constructed iterator used in single-threaded mode is the
degenerate whole-file cursor, spec §3) and the file index reported by
`GetFileIdx()`. -/
structure CSVIterator where
  set : Bool
  file_idx : Nat
deriving DecidableEq, Repr, Inhabited

/-- The scan unit returned by `Next()`: a `StringValueScanner` built from a
scanner id, the file context it is bound to, and the boundary it must
process. -/
structure ScanUnit where
  scanner_idx : Nat
  file_idx : Nat
  boundary : CSVIterator
deriving DecidableEq, Repr, Inhabited

/-- One row appended to the rejects (errors) table by `FillRejectsTable`
(global_csv_state.cpp lines 205-234), in column order. -/
structure RejectRow where
  scan_id : Nat
  file_id : Nat
  row_line : Nat
  byte_position : Nat
  column_index : Nat
  column_name : Option String
  error_type : String
  csv_row : String
  error_message : String
deriving DecidableEq, Repr, Inhabited

/-- The coordinator state (`CSVGlobalState` fields used by the excerpt).
`finalize_count` is a ghost counter recording how many times the
finalization body guarded by `running_threads == 0` has executed. -/
structure CSVGlobalState where
  num_files : Nat
  system_threads : Nat
  single_threaded : Bool
  last_file_idx : Nat
  scanner_idx : Nat
  running_threads : Nat
  finished : Bool
  current_boundary : CSVIterator
  file_scans : List CSVFileScan
  finalize_count : Nat
deriving DecidableEq, Repr, Inhabited

/-- The threading-mode decision (global_csv_state.cpp lines 27-29):
`many_csv_files = files.size() > 1 && files.size() > system_threads * 2`,
`single_threaded = many_csv_files || !options.parallel`. -/
def computeSingleThreaded (num_files system_threads : Nat) (parallel : Bool) : Bool :=
  (decide (1 < num_files) && decide (system_threads * 2 < num_files)) || !parallel

/-- Body of `CSVGlobalState::MaxThreads` (global_csv_state.cpp lines 115-126),
parameterized by `CSVIterator::BYTES_PER_THREAD` (a constant declared outside
the excerpt) and by the size of `file_scans.back()`. -/
def maxThreadsCalc (single_threaded : Bool) (system_threads file_size bytes_per_thread : Nat) :
    Nat :=
  if single_threaded then system_threads
  else
    let total_threads := file_size / bytes_per_thread + 1
    if total_threads < system_threads then total_threads else system_threads

/-- `file_scans.back()`: the most recently appended file context.  The list is
non-empty in every reachable state (the constructor appends the first file's
context). -/
def backFile (s : CSVGlobalState) : CSVFileScan :=
  s.file_scans.getLastD default

/-- `CSVGlobalState::MaxThreads` (global_csv_state.cpp lines 115-126). -/
def CSVGlobalState.MaxThreads (s : CSVGlobalState) (bytes_per_thread : Nat) : Nat :=
  maxThreadsCalc s.single_threaded s.system_threads (backFile s).file_size bytes_per_thread

/-- The `CSVGlobalState` constructor (global_csv_state.cpp lines 10-40):
stores the first file's context, decides the threading mode, initializes the
cursors and sets `running_threads = MaxThreads()`.  In single-threaded mode
the boundary is the degenerate `CSVIterator()`; in range-parallel mode it is
`CSVIterator(0, 0, 0, 0, buffer_size)` (a set boundary on file 0). -/
def mkCSVGlobalState (first_file : CSVFileScan) (num_files system_threads : Nat)
    (parallel : Bool) (bytes_per_thread : Nat) : CSVGlobalState :=
  let st := computeSingleThreaded num_files system_threads parallel
  { num_files := num_files
    system_threads := system_threads
    single_threaded := st
    last_file_idx := 0
    scanner_idx := 0
    running_threads := maxThreadsCalc st system_threads first_file.file_size bytes_per_thread
    finished := false
    current_boundary := if st then { set := false, file_idx := 0 }
      else { set := true, file_idx := 0 }
    file_scans := [first_file]
    finalize_count := 0 }

/-- The per-file progress local of `GetProgress` (global_csv_state.cpp lines
46-52): `1.0` for a zero-size file, otherwise `min(1.0, bytes_read / file_size)`. -/
def progressWithinFile (bytes_read file_size : Nat) : ℚ :=
  if file_size = 0 then 1
  else min 1 ((bytes_read : ℚ) / (file_size : ℚ))

/-- The arithmetic of `CSVGlobalState::GetProgress` (global_csv_state.cpp
lines 42-57) as a function of the observed quantities: the boundary's file
index, `bind_data.files.size()`, and the back file's `bytes_read` and
`file_size`.  C++ `double` is embedded as `ℚ`. -/
def getProgressCalc (boundary_file_idx num_files bytes_read file_size : Nat) : ℚ :=
  ((boundary_file_idx : ℚ) / (num_files : ℚ)
    + (1 / (num_files : ℚ)) * progressWithinFile bytes_read file_size) * 100

/-- `CSVGlobalState::GetProgress` (global_csv_state.cpp lines 42-57). -/
def CSVGlobalState.GetProgress (s : CSVGlobalState) : ℚ :=
  getProgressCalc s.current_boundary.file_idx s.num_files
    (backFile s).bytes_read (backFile s).file_size

/-- The `single_threaded` branch of `CSVGlobalState::Next` (global_csv_state.cpp
lines 60-76): post-increment of `last_file_idx`, bound check against
`bind_data.files.size()`, and a scanner numbered `scanner_idx++` bound to file
`cur_idx` and the (degenerate) `current_boundary`.  The range-parallel branch
(lines 77-112) is guarded by `single_threaded == false` and is not modelled. -/
def nextSingleThreaded (s : CSVGlobalState) : Option ScanUnit × CSVGlobalState :=
  let cur_idx := s.last_file_idx
  let s1 := { s with last_file_idx := s.last_file_idx + 1 }
  if s1.num_files ≤ cur_idx then (none, s1)
  else
    (some { scanner_idx := s1.scanner_idx, file_idx := cur_idx, boundary := s1.current_boundary },
      { s1 with scanner_idx := s1.scanner_idx + 1 })

/-- Iterated calls to the single-threaded `Next` branch (state after `n` calls). -/
def iterateNext (s : CSVGlobalState) : Nat → CSVGlobalState
  | 0 => s
  | n + 1 => (nextSingleThreaded (iterateNext s n)).2

/-- The result of the `k`-th call to the single-threaded `Next` branch
(`k ≥ 1`). -/
def nthNext (s : CSVGlobalState) (k : Nat) : Option ScanUnit :=
  (nextSingleThreaded (iterateNext s (k - 1))).1

/-- `CSVGlobalState::DecrementThread` (global_csv_state.cpp lines 128-138):
decrement `running_threads` under the lock; when it reaches zero, run the
finalization body (`FillRejectsTable` plus the optional debug capture),
recorded here by the ghost counter `finalize_count`. -/
def CSVGlobalState.DecrementThread (s : CSVGlobalState) : CSVGlobalState :=
  let r := s.running_threads - 1
  { s with
      running_threads := r
      finalize_count := if r = 0 then s.finalize_count + 1 else s.finalize_count }

/-- State after `k` successive `DecrementThread` calls. -/
def decrementIter (s : CSVGlobalState) : Nat → CSVGlobalState
  | 0 => s
  | k + 1 => (decrementIter s k).DecrementThread

/-- The row built for one persistence-eligible error (global_csv_state.cpp
lines 202-234), with `file_id` the loop variable of `FillRejectsTable` (which
the code initializes to 0 and never advances).  Column 5 stores `col_idx + 1`;
column 6 stores NULL for too-many-columns, the quoted next expected column
name `return_names[col_idx + 1]` for too-few-columns, and the quoted
implicated column name `return_names[col_idx]` otherwise; column 7 stores the
`CSVErrorTypeToEnum` label (always `.ok` here since the caller filtered with
`IsCSVErrorAcceptedReject`). -/
def makeRejectRow (return_names : List String) (scan_id file_id : Nat) (e : CSVError) :
    RejectRow :=
  { scan_id := scan_id
    file_id := file_id
    row_line := e.row_line
    byte_position := e.byte_position
    column_index := e.column_idx + 1
    column_name :=
      match e.type with
      | .too_many_columns => none
      | .too_few_columns => some ("\"" ++ return_names.getD (e.column_idx + 1) "" ++ "\"")
      | _ => some ("\"" ++ return_names.getD e.column_idx "" ++ "\"")
    error_type :=
      match CSVErrorTypeToEnum e.type with
      | .ok s => s
      | .error _ => ""
    csv_row := e.csv_row
    error_message := e.error_message }

/-- The per-error body of the innermost loop of `FillRejectsTable`
(global_csv_state.cpp lines 191-237): skip (`continue`) errors that are not
accepted rejects; under `limit == 0 || rejects->count < limit`, increment the
sink's count and append the row.  (The inner `if (limit != 0 && rejects->count
>= limit) break;` is unreachable under the enclosing condition and has no
effect.)  The accumulator pairs the rows appended so far with the sink's
running `rejects->count`. -/
def appendError (limit : Nat) (return_names : List String) (scan_id file_id : Nat)
    (acc : List RejectRow × Nat) (e : CSVError) : List RejectRow × Nat :=
  if !(IsCSVErrorAcceptedReject e.type) then acc
  else if limit = 0 ∨ acc.2 < limit then
    (acc.1 ++ [makeRejectRow return_names scan_id file_id e], acc.2 + 1)
  else acc

/-- `CSVGlobalState::FillRejectsTable` (global_csv_state.cpp lines 173-241):
if `store_rejects` is set, iterate the file scans, each file's error vectors,
and each vector's errors, appending eligible rows while the limit allows.
Returns the appended rows together with the sink's final count;
`init_count` is the sink's `rejects->count` on entry (the sink may be shared
across ingestion statements). -/
def fillRejectsTable (store_rejects : Bool) (rejects_limit : Nat)
    (return_names : List String) (scan_id init_count : Nat)
    (file_scans : List CSVFileScan) : List RejectRow × Nat :=
  if store_rejects then
    file_scans.foldl
      (fun acc file =>
        file.errors.foldl
          (fun acc2 error_vector =>
            error_vector.foldl (appendError rejects_limit return_names scan_id 0) acc2)
          acc)
      ([], init_count)
  else ([], init_count)

/-- All errors of one file in iteration order. -/
def flatErrors (f : CSVFileScan) : List CSVError :=
  f.errors.flatten

/-- All errors of all file scans in iteration order. -/
def allErrors (fs : List CSVFileScan) : List CSVError :=
  (fs.map flatErrors).flatten

/-- Number of persistence-eligible errors in a list. -/
def eligibleCount (l : List CSVError) : Nat :=
  (l.filter fun e => IsCSVErrorAcceptedReject e.type).length

/-- Number of persistence-eligible errors held collectively by the file scans. -/
def totalEligibleCount (fs : List CSVFileScan) : Nat :=
  eligibleCount (allErrors fs)

/-- The effective-parallelism formula exactly as the specification words it
(spec §4.1): in range-parallel mode `ceil(first_file_size / BYTES_PER_THREAD)
+ 1`, capped at the thread budget; used only to compare the claim against the
code's `MaxThreads`. -/
def specMaxThreads (single_threaded : Bool) (system_threads file_size bytes_per_thread : Nat) :
    Nat :=
  if single_threaded then system_threads
  else min ((file_size + bytes_per_thread - 1) / bytes_per_thread + 1) system_threads

/-- The observable quantities `GetProgress` depends on: the current file
index, the current file's bytes-read counter and its size. -/
structure ProgObs where
  fi : Nat
  br : Nat
  fs : Nat
deriving DecidableEq, Repr, Inhabited

/-- The state updates the coordinator permits between two progress reads
(spec §4.3): the current file's `bytes_read` only increases, and the file
index only advances, the new file's `bytes_read` restarting at 0. -/
inductive ProgressStep (num_files : Nat) : ProgObs → ProgObs → Prop
  | readBytes (o : ProgObs) (br2 : Nat) (h : o.br ≤ br2) :
      ProgressStep num_files o { o with br := br2 }
  | advanceFile (o : ProgObs) (fs2 : Nat) (h : o.fi + 1 < num_files) :
      ProgressStep num_files o { fi := o.fi + 1, br := 0, fs := fs2 }

/-- Sample data used by the concrete witnesses below. -/
def sampleError1 : CSVError :=
  { type := .cast_error, column_idx := 0, byte_position := 10, row_line := 1,
    csv_row := "a,b", error_message := "could not cast" }

/-- A second sample error, of a different eligible kind. -/
def sampleError2 : CSVError :=
  { type := .too_many_columns, column_idx := 2, byte_position := 20, row_line := 2,
    csv_row := "a,b,c", error_message := "expected 2 columns" }

/-- A sample file context holding two eligible errors. -/
def sampleFileErrors : CSVFileScan :=
  { file_path := "data.csv", file_idx := 0, file_size := 100, bytes_read := 100,
    errors := [[sampleError1], [sampleError2]] }

/-- A sample first file of one byte (used against the `MaxThreads` claim). -/
def sampleSmallFile : CSVFileScan :=
  { file_path := "small.csv", file_idx := 0, file_size := 1, bytes_read := 0,
    errors := [] }

/-- The C++ pattern `if (a < b) return a; return b;` computes `min a b`. -/
theorem ite_lt_eq_min (a b : Nat) : (if a < b then a else b) = min a b := by
  split_ifs with h
  · exact (min_eq_left (by omega)).symm
  · exact (min_eq_right (by omega)).symm

/-- The state after one single-threaded `Next` call: `last_file_idx` always
advances, `scanner_idx` advances exactly when a unit was issued, every other
field is untouched. -/
theorem nextSingleThreaded_snd (s : CSVGlobalState) :
    (nextSingleThreaded s).2 =
      { s with
          last_file_idx := s.last_file_idx + 1
          scanner_idx :=
            if s.num_files ≤ s.last_file_idx then s.scanner_idx else s.scanner_idx + 1 } := by
  by_cases h : s.num_files ≤ s.last_file_idx <;> simp [nextSingleThreaded, h]

/-- The unit returned by one single-threaded `Next` call: the sentinel when
the claimed index is beyond the file count, otherwise a scanner bound to the
claimed file and the current (degenerate) boundary. -/
theorem nextSingleThreaded_fst (s : CSVGlobalState) :
    (nextSingleThreaded s).1 =
      if s.num_files ≤ s.last_file_idx then none
      else some { scanner_idx := s.scanner_idx, file_idx := s.last_file_idx,
                  boundary := s.current_boundary } := by
  by_cases h : s.num_files ≤ s.last_file_idx <;> simp [nextSingleThreaded, h]

/-- Fields of the state after `k` single-threaded `Next` calls. -/
theorem iterateNext_fields (s : CSVGlobalState) (k : Nat) :
    (iterateNext s k).last_file_idx = s.last_file_idx + k
    ∧ (iterateNext s k).num_files = s.num_files
    ∧ (iterateNext s k).single_threaded = s.single_threaded
    ∧ (iterateNext s k).current_boundary = s.current_boundary
    ∧ (iterateNext s k).file_scans = s.file_scans := by
  induction k with
  | zero => simp [iterateNext]
  | succ k ih =>
    obtain ⟨h1, h2, h3, h4, h5⟩ := ih
    rw [iterateNext, nextSingleThreaded_snd]
    refine ⟨?_, ?_, ?_, ?_, ?_⟩ <;> (simp [h1, h2, h3, h4, h5]; try omega)

/-- Running-thread count and finalization count after `k ≤ running_threads`
calls to `DecrementThread`. -/
theorem decrementIter_spec (s : CSVGlobalState) (hrun : 0 < s.running_threads) :
    ∀ k, k ≤ s.running_threads →
      (decrementIter s k).running_threads = s.running_threads - k
      ∧ (decrementIter s k).finalize_count
          = s.finalize_count + (if k = s.running_threads then 1 else 0) := by
  intro k
  induction k with
  | zero =>
    intro _
    rw [decrementIter]
    refine ⟨rfl, ?_⟩
    rw [if_neg (by omega)]
    omega
  | succ k ih =>
    intro hk
    obtain ⟨h1, h2⟩ := ih (by omega)
    have e1 : ((decrementIter s k).DecrementThread).running_threads
        = (decrementIter s k).running_threads - 1 := rfl
    have e2 : ((decrementIter s k).DecrementThread).finalize_count
        = if (decrementIter s k).running_threads - 1 = 0
          then (decrementIter s k).finalize_count + 1
          else (decrementIter s k).finalize_count := rfl
    rw [decrementIter]
    refine ⟨?_, ?_⟩
    · rw [e1, h1]; omega
    · rw [e2, h1, h2]; split_ifs <;> omega

/-- C1: if `DecrementThread()` is called exactly `running_threads` times
(that counter having been set to `MaxThreads()` at construction and being
positive), the finalization body runs exactly once — on the single call that
brings the counter to zero, never before and never twice; moreover the
`D_ASSERT(running_threads > 0)` precondition holds at each of those calls.
The lock serializes the calls, so one sequential order models every
interleaving, and all calls are identical, so the property is
order-independent. -/
theorem decrementThread_finalizes_once (s : CSVGlobalState)
    (hrun : 0 < s.running_threads) (hfin : s.finalize_count = 0) :
    (decrementIter s s.running_threads).finalize_count = 1
    ∧ (∀ k, k < s.running_threads → (decrementIter s k).finalize_count = 0)
    ∧ (∀ k, k < s.running_threads → 0 < (decrementIter s k).running_threads) := by
  refine ⟨?_, ?_, ?_⟩
  · have h := (decrementIter_spec s hrun s.running_threads le_rfl).2
    rw [if_pos rfl] at h
    omega
  · intro k hk
    have h := (decrementIter_spec s hrun k (le_of_lt hk)).2
    rw [if_neg (by omega)] at h
    omega
  · intro k hk
    have h := (decrementIter_spec s hrun k (le_of_lt hk)).1
    omega

/-- Witness for C1: a freshly constructed coordinator over one small file
with budget 2 has `running_threads = 1`; that many decrements finalize
exactly once. -/
theorem decrementThread_finalizes_once_witness :
    (decrementIter (mkCSVGlobalState sampleSmallFile 1 2 true 10000000)
        (mkCSVGlobalState sampleSmallFile 1 2 true 10000000).running_threads).finalize_count
      = 1 :=
  (decrementThread_finalizes_once (mkCSVGlobalState sampleSmallFile 1 2 true 10000000)
    (by decide) (by decide)).1

/-- C2 counterexample: with a single file and a thread budget of zero (and
parallelism enabled), the file count exceeds twice the budget, yet the
coordinator does not select single-threaded mode, because the code also
requires `files.size() > 1`. -/
theorem singleThreaded_claim_counterexample :
    computeSingleThreaded 1 0 true = false ∧ (0 * 2 < 1 ∨ true = false) := by
  decide

/-- C2 (amended): the coordinator selects single-threaded mode if and only if
there is more than one file and the file count exceeds twice the thread
budget, or the caller disabled parallelism.  (For any thread budget ≥ 1 the
extra `1 < num_files` conjunct is implied, and the amended statement
coincides with the original claim.) -/
theorem singleThreaded_mode_iff (num_files system_threads : Nat) (parallel : Bool) :
    computeSingleThreaded num_files system_threads parallel = true
      ↔ ((1 < num_files ∧ system_threads * 2 < num_files) ∨ parallel = false) := by
  cases parallel <;> simp [computeSingleThreaded]

/-- C3 counterexample: a range-parallel coordinator over a 1-byte first file
with thread budget 10.  The claimed formula `min(ceil(size / BYTES_PER_THREAD)
+ 1, budget)` gives 2, but `MaxThreads()` returns 1: the code uses floor
division, `size / BYTES_PER_THREAD + 1`. -/
theorem maxThreads_claim_counterexample :
    (mkCSVGlobalState sampleSmallFile 1 10 true 10000000).single_threaded = false
    ∧ (mkCSVGlobalState sampleSmallFile 1 10 true 10000000).MaxThreads 10000000 = 1
    ∧ specMaxThreads false 10 1 10000000 = 2 := by
  decide

/-- C3 (amended): `MaxThreads()` returns the thread budget unchanged in
single-threaded mode, and in range-parallel mode returns
`min(first_file_size / BYTES_PER_THREAD + 1, budget)` with floor (integer)
division — not the ceiling — of the first file's size. -/
theorem maxThreads_formula (s : CSVGlobalState) (bytes_per_thread : Nat) :
    s.MaxThreads bytes_per_thread
      = if s.single_threaded then s.system_threads
        else min ((backFile s).file_size / bytes_per_thread + 1) s.system_threads := by
  unfold CSVGlobalState.MaxThreads maxThreadsCalc
  split
  · rfl
  · exact ite_lt_eq_min _ _

/-- C8: `IsCSVErrorAcceptedReject` returns true precisely for the six kinds
cast failure, too-many-columns, too-few-columns, maximum-line-size,
unterminated quotes and invalid unicode; rendering a persistence label for
any other kind raises the internal-error exception, while each eligible kind
maps to its label. -/
theorem errorType_classification :
    (∀ t, IsCSVErrorAcceptedReject t = true ↔
      (t = CSVErrorType.cast_error ∨ t = CSVErrorType.too_many_columns ∨
        t = CSVErrorType.too_few_columns ∨ t = CSVErrorType.maximum_line_size ∨
        t = CSVErrorType.unterminated_quotes ∨ t = CSVErrorType.invalid_unicode))
    ∧ (∀ t, IsCSVErrorAcceptedReject t = false ↔
        CSVErrorTypeToEnum t
          = .error "CSV Error is not valid to be stored in a Rejects Table")
    ∧ CSVErrorTypeToEnum CSVErrorType.cast_error = .ok "CAST"
    ∧ CSVErrorTypeToEnum CSVErrorType.too_many_columns = .ok "TOO MANY COLUMNS"
    ∧ CSVErrorTypeToEnum CSVErrorType.too_few_columns = .ok "MISSING COLUMNS"
    ∧ CSVErrorTypeToEnum CSVErrorType.maximum_line_size = .ok "LINE SIZE OVER MAXIMUM"
    ∧ CSVErrorTypeToEnum CSVErrorType.unterminated_quotes = .ok "UNQUOTED VALUE"
    ∧ CSVErrorTypeToEnum CSVErrorType.invalid_unicode = .ok "INVALID UNICODE" := by
  refine ⟨fun t => ?_, fun t => ?_, rfl, rfl, rfl, rfl, rfl, rfl⟩ <;>
    cases t <;> simp [IsCSVErrorAcceptedReject, CSVErrorTypeToEnum]

/-- C9: in single-threaded mode, the `k`-th `Next()` call returns a scan unit
bound to file `k - 1` carrying the degenerate (whole-file) boundary while
`k ≤ file count`, and the "no more work" sentinel afterwards.  In particular,
over 3 files with thread budget 1 the calls yield files 0, 1, 2 and then the
sentinel. -/
theorem nextST_file_order (first_file : CSVFileScan) (num_files system_threads bpt k : Nat)
    (parallel : Bool)
    (hst : (mkCSVGlobalState first_file num_files system_threads parallel bpt).single_threaded
      = true)
    (hk : 1 ≤ k) :
    (k ≤ num_files → ∃ u,
      nthNext (mkCSVGlobalState first_file num_files system_threads parallel bpt) k = some u
      ∧ u.file_idx = k - 1 ∧ u.boundary.set = false)
    ∧ (num_files < k →
      nthNext (mkCSVGlobalState first_file num_files system_threads parallel bpt) k = none) := by
  have hb : (mkCSVGlobalState first_file num_files system_threads parallel bpt).current_boundary
      = { set := false, file_idx := 0 } := by
    have hst' : computeSingleThreaded num_files system_threads parallel = true := hst
    simp [mkCSVGlobalState, hst']
  obtain ⟨h1, h2, _, h4, _⟩ :=
    iterateNext_fields (mkCSVGlobalState first_file num_files system_threads parallel bpt) (k - 1)
  have hlast : (iterateNext (mkCSVGlobalState first_file num_files system_threads parallel bpt)
      (k - 1)).last_file_idx = k - 1 := by
    rw [h1]; show 0 + (k - 1) = k - 1; omega
  have hnum : (iterateNext (mkCSVGlobalState first_file num_files system_threads parallel bpt)
      (k - 1)).num_files = num_files := by
    rw [h2]; rfl
  have hbd : (iterateNext (mkCSVGlobalState first_file num_files system_threads parallel bpt)
      (k - 1)).current_boundary = { set := false, file_idx := 0 } := by
    rw [h4, hb]
  constructor
  · intro hkn
    refine ⟨⟨(iterateNext (mkCSVGlobalState first_file num_files system_threads parallel bpt)
      (k - 1)).scanner_idx, k - 1, false, 0⟩, ?_, rfl, rfl⟩
    unfold nthNext
    rw [nextSingleThreaded_fst, hnum, hlast, hbd, if_neg (by omega)]
  · intro hkn
    unfold nthNext
    rw [nextSingleThreaded_fst, hnum, hlast, if_pos (by omega)]

/-- Witness for C9: over 3 files with thread budget 1 the coordinator is
single-threaded and the fourth call returns the sentinel. -/
theorem nextST_file_order_witness :
    nthNext (mkCSVGlobalState sampleSmallFile 3 1 true 10000000) 4 = none :=
  (nextST_file_order sampleSmallFile 3 1 10000000 4 true (by decide) (by decide)).2
    (by decide)

/-- C10: in single-threaded mode no number of `Next()` calls modifies the
coordinator's file-context list (it keeps exactly the first file's context)
or the degenerate boundary, so `GetProgress()` keeps computing its
current-file term from file 0 — its bytes-read counter, its size and the
degenerate cursor's file index 0 — even after `Next()` has dispatched later
files. -/
theorem nextST_frame (first_file : CSVFileScan) (num_files system_threads bpt k : Nat)
    (parallel : Bool)
    (hst : (mkCSVGlobalState first_file num_files system_threads parallel bpt).single_threaded
      = true) :
    (iterateNext (mkCSVGlobalState first_file num_files system_threads parallel bpt)
        k).file_scans = [first_file]
    ∧ (iterateNext (mkCSVGlobalState first_file num_files system_threads parallel bpt)
        k).current_boundary
      = (mkCSVGlobalState first_file num_files system_threads parallel bpt).current_boundary
    ∧ (iterateNext (mkCSVGlobalState first_file num_files system_threads parallel bpt)
        k).GetProgress
      = getProgressCalc 0 num_files first_file.bytes_read first_file.file_size := by
  have hst' : computeSingleThreaded num_files system_threads parallel = true := hst
  obtain ⟨_, h2, _, h4, h5⟩ :=
    iterateNext_fields (mkCSVGlobalState first_file num_files system_threads parallel bpt) k
  refine ⟨?_, h4, ?_⟩
  · rw [h5]; rfl
  · unfold CSVGlobalState.GetProgress backFile
    rw [h2, h4, h5]
    simp [mkCSVGlobalState, hst']

/-- Witness for C10: after five `Next()` calls over 3 files in single-threaded
mode the file-context list still holds exactly the first file's context. -/
theorem nextST_frame_witness :
    (iterateNext (mkCSVGlobalState sampleSmallFile 3 1 true 10000000) 5).file_scans
      = [sampleSmallFile] :=
  (nextST_frame sampleSmallFile 3 1 10000000 5 true (by decide)).1

/-- Per-file progress is never negative. -/
theorem progressWithinFile_nonneg (br fs : Nat) : 0 ≤ progressWithinFile br fs := by
  unfold progressWithinFile
  split_ifs
  · norm_num
  · exact le_min (by norm_num) (div_nonneg (Nat.cast_nonneg br) (Nat.cast_nonneg fs))

/-- Per-file progress never exceeds 1. -/
theorem progressWithinFile_le_one (br fs : Nat) : progressWithinFile br fs ≤ 1 := by
  unfold progressWithinFile
  split_ifs
  · exact le_refl 1
  · exact min_le_left 1 _

/-- Per-file progress is monotone in the bytes-read counter. -/
theorem progressWithinFile_mono (br br2 fs : Nat) (h : br ≤ br2) :
    progressWithinFile br fs ≤ progressWithinFile br2 fs := by
  unfold progressWithinFile
  split_ifs with hfs
  · exact le_refl 1
  · have hc : (0 : ℚ) < (fs : ℚ) := by
      exact_mod_cast Nat.pos_of_ne_zero hfs
    exact min_le_min (le_refl 1) ((div_le_div_iff_of_pos_right hc).mpr (by exact_mod_cast h))

/-- A fully read file (bytes_read ≥ file_size) has per-file progress exactly 1. -/
theorem progressWithinFile_complete (br fs : Nat) (h : fs ≤ br) :
    progressWithinFile br fs = 1 := by
  unfold progressWithinFile
  split_ifs with hfs
  · rfl
  · have hc : (0 : ℚ) < (fs : ℚ) := by
      exact_mod_cast Nat.pos_of_ne_zero hfs
    exact min_eq_left ((one_le_div hc).mpr (by exact_mod_cast h))

/-- `GetProgress` arithmetic in closed form: `(file_idx + per-file progress) /
total_files * 100`. -/
theorem getProgressCalc_eq (fi n br fs : Nat) :
    getProgressCalc fi n br fs
      = ((fi : ℚ) + progressWithinFile br fs) / (n : ℚ) * 100 := by
  unfold getProgressCalc
  rw [one_div_mul_eq_div, div_add_div_same]

/-- C4: for every reachable coordinator observation (non-empty file list,
boundary file index within the list), `GetProgress()` returns a value in
`[0, 100]`; a current file of size 0 contributes per-file progress 1; and
when the boundary sits on the last file and that file is fully read
(`bytes_read ≥ file_size`), `GetProgress()` returns exactly 100. -/
theorem getProgress_in_range (fi n br fs : Nat) (hn : 0 < n) (hfi : fi < n) :
    (0 ≤ getProgressCalc fi n br fs ∧ getProgressCalc fi n br fs ≤ 100)
    ∧ progressWithinFile br 0 = 1
    ∧ (fi = n - 1 → fs ≤ br → getProgressCalc fi n br fs = 100) := by
  have hn' : (0 : ℚ) < (n : ℚ) := by exact_mod_cast hn
  have hp0 := progressWithinFile_nonneg br fs
  have hp1 := progressWithinFile_le_one br fs
  have hfin : (0 : ℚ) ≤ (fi : ℚ) := Nat.cast_nonneg fi
  refine ⟨⟨?_, ?_⟩, ?_, ?_⟩
  · rw [getProgressCalc_eq]
    apply mul_nonneg _ (by norm_num)
    exact div_nonneg (by linarith) (le_of_lt hn')
  · rw [getProgressCalc_eq]
    have hfi' : (fi : ℚ) + 1 ≤ (n : ℚ) := by exact_mod_cast Nat.succ_le_of_lt hfi
    have h3 : ((fi : ℚ) + progressWithinFile br fs) / (n : ℚ) ≤ 1 :=
      (div_le_one hn').mpr (by linarith)
    linarith
  · simp [progressWithinFile]
  · intro h1 h2
    subst h1
    rw [getProgressCalc_eq, progressWithinFile_complete br fs h2,
      Nat.cast_sub (by omega : 1 ≤ n)]
    have he : ((n : ℚ) - (1 : Nat) + 1) = (n : ℚ) := by push_cast; ring
    rw [he, div_self (ne_of_gt hn')]
    norm_num

/-- Witness for C4: two files, boundary on the last one, 7 of 5 bytes read
(compressed over-read): progress is exactly 100. -/
theorem getProgress_in_range_witness : getProgressCalc 1 2 7 5 = 100 :=
  (getProgress_in_range 1 2 7 5 (by norm_num) (by norm_num)).2.2 rfl (by norm_num)

/-- One permitted update never decreases the reported progress. -/
theorem getProgress_step_mono (n : Nat) (hn : 0 < n) (a b : ProgObs)
    (h : ProgressStep n a b) :
    getProgressCalc a.fi n a.br a.fs ≤ getProgressCalc b.fi n b.br b.fs := by
  have hn' : (0 : ℚ) < (n : ℚ) := by exact_mod_cast hn
  cases h with
  | readBytes br2 hbr =>
    dsimp only
    rw [getProgressCalc_eq, getProgressCalc_eq]
    have hm := progressWithinFile_mono a.br br2 a.fs hbr
    have hd := (div_le_div_iff_of_pos_right hn').mpr
      (by linarith :
        (a.fi : ℚ) + progressWithinFile a.br a.fs
          ≤ (a.fi : ℚ) + progressWithinFile br2 a.fs)
    linarith
  | advanceFile fs2 hadv =>
    dsimp only
    rw [getProgressCalc_eq, getProgressCalc_eq]
    have h1 := progressWithinFile_le_one a.br a.fs
    have h2 := progressWithinFile_nonneg 0 fs2
    have hd := (div_le_div_iff_of_pos_right hn').mpr
      (by linarith :
        (a.fi : ℚ) + progressWithinFile a.br a.fs
          ≤ ((a.fi : ℚ) + 1) + progressWithinFile 0 fs2)
    push_cast
    linarith

/-- C5: `GetProgress()` is monotonically non-decreasing over any sequence of
updates the coordinator permits — increases of the current file's `bytes_read`
and advances of the current file index with the new file's `bytes_read`
restarting at 0. -/
theorem getProgress_monotone (n : Nat) (a b : ProgObs) (hn : 0 < n)
    (h : Relation.ReflTransGen (ProgressStep n) a b) :
    getProgressCalc a.fi n a.br a.fs ≤ getProgressCalc b.fi n b.br b.fs := by
  induction h with
  | refl => exact le_refl _
  | tail hab hbc ih => exact le_trans ih (getProgress_step_mono n hn _ _ hbc)

/-- Witness for C5: reading 3 bytes of a 5-byte file never lowers progress. -/
theorem getProgress_monotone_witness : getProgressCalc 0 2 0 5 ≤ getProgressCalc 0 2 3 5 :=
  getProgress_monotone 2 ⟨0, 0, 5⟩ ⟨0, 3, 5⟩ (by decide)
    (Relation.ReflTransGen.single (ProgressStep.readBytes ⟨0, 0, 5⟩ 3 (by decide)))

/-- Folding element-wise over each list of a list of lists is folding over
their concatenation. -/
theorem foldl_over_flatten {α β : Type} (step : β → α → β) :
    ∀ (L : List (List α)) (acc : β),
      L.foldl (fun a l => l.foldl step a) acc = L.flatten.foldl step acc := by
  intro L
  induction L with
  | nil => intro acc; rfl
  | cons x L ih => intro acc; simp only [List.foldl_cons, List.flatten_cons,
      List.foldl_append, ih]

/-- Folding over the image lists of a list is folding over the flattened map. -/
theorem foldl_over_map_flatten {α β γ : Type} (step : β → γ → β) (g : α → List γ) :
    ∀ (L : List α) (acc : β),
      L.foldl (fun a x => (g x).foldl step a) acc = ((L.map g).flatten).foldl step acc := by
  intro L
  induction L with
  | nil => intro acc; rfl
  | cons x L ih => intro acc; simp only [List.foldl_cons, List.map_cons,
      List.flatten_cons, List.foldl_append, ih]

/-- The triply nested loop of `FillRejectsTable` processes exactly the flat
sequence of all errors of all file scans, in iteration order. -/
theorem fillRejectsTable_eq_foldl (rejects_limit : Nat) (return_names : List String)
    (scan_id init_count : Nat) (file_scans : List CSVFileScan) :
    fillRejectsTable true rejects_limit return_names scan_id init_count file_scans
      = (allErrors file_scans).foldl (appendError rejects_limit return_names scan_id 0)
          ([], init_count) := by
  unfold fillRejectsTable
  rw [if_pos rfl]
  have h1 : ∀ (file : CSVFileScan) (acc : List RejectRow × Nat),
      file.errors.foldl
        (fun acc2 error_vector =>
          error_vector.foldl (appendError rejects_limit return_names scan_id 0) acc2) acc
        = (flatErrors file).foldl (appendError rejects_limit return_names scan_id 0) acc := by
    intro file acc
    exact foldl_over_flatten (appendError rejects_limit return_names scan_id 0) file.errors acc
  calc file_scans.foldl
        (fun acc file =>
          file.errors.foldl
            (fun acc2 error_vector =>
              error_vector.foldl (appendError rejects_limit return_names scan_id 0) acc2) acc)
        ([], init_count)
      = file_scans.foldl
          (fun acc file =>
            (flatErrors file).foldl (appendError rejects_limit return_names scan_id 0) acc)
          ([], init_count) := by
        congr 1
        funext acc file
        exact h1 file acc
    _ = ((file_scans.map flatErrors).flatten).foldl
          (appendError rejects_limit return_names scan_id 0) ([], init_count) :=
        foldl_over_map_flatten (appendError rejects_limit return_names scan_id 0) flatErrors
          file_scans ([], init_count)

/-- Running a nonzero-limit `appendError` fold: the sink count saturates at
the limit, and the number of appended rows is the count increase. -/
theorem appendError_run (limit : Nat) (hl : limit ≠ 0) (return_names : List String)
    (scan_id file_id : Nat) :
    ∀ (l : List CSVError) (rows : List RejectRow) (c : Nat), c ≤ limit →
      (l.foldl (appendError limit return_names scan_id file_id) (rows, c)).1.length
          = rows.length + (min limit (c + eligibleCount l) - c)
      ∧ (l.foldl (appendError limit return_names scan_id file_id) (rows, c)).2
          = min limit (c + eligibleCount l) := by
  intro l
  induction l with
  | nil =>
    intro rows c hc
    simp only [List.foldl_nil, eligibleCount, List.filter_nil, List.length_nil]
    omega
  | cons e l ih =>
    intro rows c hc
    rw [List.foldl_cons]
    by_cases he : IsCSVErrorAcceptedReject e.type
    · have hecount : eligibleCount (e :: l) = eligibleCount l + 1 := by
        simp [eligibleCount, List.filter_cons, he]
      by_cases hcl : c < limit
      · have hstep : appendError limit return_names scan_id file_id (rows, c) e
            = (rows ++ [makeRejectRow return_names scan_id file_id e], c + 1) := by
          simp [appendError, he, hcl]
        rw [hstep]
        obtain ⟨h1, h2⟩ :=
          ih (rows ++ [makeRejectRow return_names scan_id file_id e]) (c + 1) (by omega)
        rw [h1, h2, hecount]
        simp only [List.length_append, List.length_cons, List.length_nil]
        omega
      · have hstep : appendError limit return_names scan_id file_id (rows, c) e
            = (rows, c) := by
          simp [appendError, he, hl, hcl]
        rw [hstep]
        obtain ⟨h1, h2⟩ := ih rows c hc
        rw [h1, h2, hecount]
        omega
    · have hstep : appendError limit return_names scan_id file_id (rows, c) e
          = (rows, c) := by
        simp [appendError, he]
      have hecount : eligibleCount (e :: l) = eligibleCount l := by
        simp [eligibleCount, List.filter_cons, he]
      rw [hstep, hecount]
      exact ih rows c hc

/-- Running a zero-limit (unlimited) `appendError` fold: every eligible error
is appended. -/
theorem appendError_run_zero (return_names : List String) (scan_id file_id : Nat) :
    ∀ (l : List CSVError) (rows : List RejectRow) (c : Nat),
      (l.foldl (appendError 0 return_names scan_id file_id) (rows, c)).1.length
          = rows.length + eligibleCount l
      ∧ (l.foldl (appendError 0 return_names scan_id file_id) (rows, c)).2
          = c + eligibleCount l := by
  intro l
  induction l with
  | nil =>
    intro rows c
    simp [eligibleCount]
  | cons e l ih =>
    intro rows c
    rw [List.foldl_cons]
    by_cases he : IsCSVErrorAcceptedReject e.type
    · have hstep : appendError 0 return_names scan_id file_id (rows, c) e
          = (rows ++ [makeRejectRow return_names scan_id file_id e], c + 1) := by
        simp [appendError, he]
      rw [hstep]
      obtain ⟨h1, h2⟩ :=
        ih (rows ++ [makeRejectRow return_names scan_id file_id e]) (c + 1)
      rw [h1, h2]
      have hecount : eligibleCount (e :: l) = eligibleCount l + 1 := by
        simp [eligibleCount, List.filter_cons, he]
      simp only [List.length_append, List.length_cons, List.length_nil, hecount]
      omega
    · have hstep : appendError 0 return_names scan_id file_id (rows, c) e = (rows, c) := by
        simp [appendError, he]
      have hecount : eligibleCount (e :: l) = eligibleCount l := by
        simp [eligibleCount, List.filter_cons, he]
      rw [hstep, hecount]
      exact ih rows c

/-- Every row produced by an `appendError` fold either was already in the
accumulator or is the materialization of some eligible error of the list. -/
theorem appendError_mem (limit : Nat) (return_names : List String) (scan_id file_id : Nat) :
    ∀ (l : List CSVError) (rows : List RejectRow) (c : Nat) (r : RejectRow),
      r ∈ (l.foldl (appendError limit return_names scan_id file_id) (rows, c)).1 →
      r ∈ rows ∨ ∃ e, e ∈ l ∧ IsCSVErrorAcceptedReject e.type = true
        ∧ r = makeRejectRow return_names scan_id file_id e := by
  intro l
  induction l with
  | nil =>
    intro rows c r hr
    exact Or.inl hr
  | cons e l ih =>
    intro rows c r hr
    rw [List.foldl_cons] at hr
    by_cases he : IsCSVErrorAcceptedReject e.type
    · by_cases hcl : limit = 0 ∨ c < limit
      · have hstep : appendError limit return_names scan_id file_id (rows, c) e
            = (rows ++ [makeRejectRow return_names scan_id file_id e], c + 1) := by
          simp only [appendError, he, Bool.not_true, Bool.false_eq_true, if_false,
            if_pos hcl]
        rw [hstep] at hr
        rcases ih _ _ r hr with hin | ⟨e2, he2, hacc, hrow⟩
        · rcases List.mem_append.mp hin with hin2 | hin2
          · exact Or.inl hin2
          · refine Or.inr ⟨e, List.mem_cons_self e l, he, ?_⟩
            simpa using hin2
        · exact Or.inr ⟨e2, List.mem_cons_of_mem e he2, hacc, hrow⟩
      · have hstep : appendError limit return_names scan_id file_id (rows, c) e
            = (rows, c) := by
          simp only [appendError, he, Bool.not_true, Bool.false_eq_true, if_false,
            if_neg hcl]
        rw [hstep] at hr
        rcases ih rows c r hr with hin | ⟨e2, he2, hacc, hrow⟩
        · exact Or.inl hin
        · exact Or.inr ⟨e2, List.mem_cons_of_mem e he2, hacc, hrow⟩
    · have hstep : appendError limit return_names scan_id file_id (rows, c) e
          = (rows, c) := by
        simp [appendError, he]
      rw [hstep] at hr
      rcases ih rows c r hr with hin | ⟨e2, he2, hacc, hrow⟩
      · exact Or.inl hin
      · exact Or.inr ⟨e2, List.mem_cons_of_mem e he2, hacc, hrow⟩

/-- C6: with `store_rejects` enabled, a fresh sink, and limit `K > 0` while
the file scans collectively hold more than `K` persistence-eligible errors,
`FillRejectsTable` appends exactly `K` rows and no more; with `K = 0`
(unlimited), it appends every eligible error. -/
theorem fillRejects_limit_behavior (K : Nat) (return_names : List String) (scan_id : Nat)
    (file_scans : List CSVFileScan) :
    (0 < K → K < totalEligibleCount file_scans →
      (fillRejectsTable true K return_names scan_id 0 file_scans).1.length = K)
    ∧ (fillRejectsTable true 0 return_names scan_id 0 file_scans).1.length
        = totalEligibleCount file_scans := by
  constructor
  · intro hK hmore
    rw [fillRejectsTable_eq_foldl]
    have h := (appendError_run K (by omega) return_names scan_id 0
      (allErrors file_scans) [] 0 (by omega)).1
    rw [h]
    unfold totalEligibleCount at hmore
    simp only [List.length_nil]
    omega
  · rw [fillRejectsTable_eq_foldl]
    have h := (appendError_run_zero return_names scan_id 0 (allErrors file_scans) [] 0).1
    rw [h]
    unfold totalEligibleCount
    simp

/-- Witness for C6: a file holding two eligible errors against limit 1
persists exactly one row. -/
theorem fillRejects_limit_behavior_witness :
    (fillRejectsTable true 1 ["colA", "colB"] 7 0 [sampleFileErrors]).1.length = 1 :=
  (fillRejects_limit_behavior 1 ["colA", "colB"] 7 [sampleFileErrors]).1 (by decide)
    (by decide)

/-- C7: every row persisted by `FillRejectsTable` comes from some eligible
error `e` and stores the 1-based column index `e.column_idx + 1`; its column
name is NULL for a too-many-columns error, the (quoted) next expected column
name `return_names[c + 1]` for a too-few-columns error at column index `c`,
and the (quoted) implicated column name `return_names[c]` for every other
eligible kind. -/
theorem fillRejects_row_fields (store_rejects : Bool) (rejects_limit : Nat)
    (return_names : List String) (scan_id init_count : Nat)
    (file_scans : List CSVFileScan) (r : RejectRow)
    (hr : r ∈ (fillRejectsTable store_rejects rejects_limit return_names scan_id init_count
      file_scans).1) :
    ∃ e, e ∈ allErrors file_scans ∧ IsCSVErrorAcceptedReject e.type = true
      ∧ r.column_index = e.column_idx + 1
      ∧ (e.type = CSVErrorType.too_many_columns → r.column_name = none)
      ∧ (e.type = CSVErrorType.too_few_columns →
          r.column_name = some ("\"" ++ return_names.getD (e.column_idx + 1) "" ++ "\""))
      ∧ (e.type ≠ CSVErrorType.too_many_columns → e.type ≠ CSVErrorType.too_few_columns →
          r.column_name = some ("\"" ++ return_names.getD e.column_idx "" ++ "\"")) := by
  cases store_rejects with
  | false => simp [fillRejectsTable] at hr
  | true =>
    rw [fillRejectsTable_eq_foldl] at hr
    rcases appendError_mem rejects_limit return_names scan_id 0 (allErrors file_scans)
        [] init_count r hr with hin | ⟨e, hmem, hacc, hrow⟩
    · simp at hin
    · subst hrow
      refine ⟨e, hmem, hacc, rfl, ?_, ?_, ?_⟩
      · intro ht; simp [makeRejectRow, ht]
      · intro ht; simp [makeRejectRow, ht]
      · intro ht1 ht2
        obtain ⟨ty, ci, bp, rl, rowtext, msg⟩ := e
        cases ty <;> simp_all [makeRejectRow]

/-- Witness for C7: the single row persisted for a cast error at column 0
carries column index 1 and the quoted name of column 0. -/
theorem fillRejects_row_fields_witness :
    ∃ e, e ∈ allErrors [sampleFileErrors] ∧ IsCSVErrorAcceptedReject e.type = true
      ∧ (makeRejectRow ["colA", "colB"] 7 0 sampleError1).column_index = e.column_idx + 1
      ∧ (e.type = CSVErrorType.too_many_columns →
          (makeRejectRow ["colA", "colB"] 7 0 sampleError1).column_name = none)
      ∧ (e.type = CSVErrorType.too_few_columns →
          (makeRejectRow ["colA", "colB"] 7 0 sampleError1).column_name
            = some ("\"" ++ ["colA", "colB"].getD (e.column_idx + 1) "" ++ "\""))
      ∧ (e.type ≠ CSVErrorType.too_many_columns → e.type ≠ CSVErrorType.too_few_columns →
          (makeRejectRow ["colA", "colB"] 7 0 sampleError1).column_name
            = some ("\"" ++ ["colA", "colB"].getD e.column_idx "" ++ "\"")) :=
  fillRejects_row_fields true 1 ["colA", "colB"] 7 0 [sampleFileErrors]
    (makeRejectRow ["colA", "colB"] 7 0 sampleError1) (by decide)

end CSVScan
